import Mathlib

/-!
Shallow embedding of the `mstatus` register module of the `riscv` crate
(src/src/register/mstatus.rs), together with proofs of its specified
properties.

Modelling conventions:
- Rust `usize` words are embedded as `Nat`; the masks used by the code all
  occupy low bits, so `&`, `|` and shifts transfer directly.  The Rust
  expression `w & !mask` (bitwise AND with a complemented mask on a
  fixed-width word) is embedded as `Nat.ldiff w mask`, which clears exactly
  the bits of `mask` and agrees with the Rust expression on every word that
  fits in the machine width.
- `unreachable!()` and `unimplemented!()` (panics) are embedded as `none`
  of an `Option` result.
- The live CSR is embedded as an explicit `Nat` state threaded through the
  hardware operations, together with the compilation target, since the
  code selects its behaviour by `target_arch`.
-/

namespace RiscvMstatus

/-- `Mstatus`: snapshot of the mstatus register, wrapping one raw word
(`bits: usize` in the source). -/
structure Mstatus where
  bits : Nat
deriving DecidableEq, Repr

/-- `MPP`: Machine Previous Privilege Mode, with the source's numeric
discriminants `Machine = 3, Supervisor = 1, User = 0`. -/
inductive MPP
  | Machine
  | Supervisor
  | User
deriving DecidableEq, Repr

/-- Numeric discriminant of an `MPP` variant (`val as usize` in the source). -/
def MPP.code : MPP → Nat
  | .Machine => 3
  | .Supervisor => 1
  | .User => 0

/-- `SPP`: Supervisor Previous Privilege Mode, discriminants
`Supervisor = 1, User = 0`. -/
inductive SPP
  | Supervisor
  | User
deriving DecidableEq, Repr

/-- Numeric discriminant of an `SPP` variant. -/
def SPP.code : SPP → Nat
  | .Supervisor => 1
  | .User => 0

/-- `bit_field` crate `set_bit(i, val)`: `w | (1 << i)` when `val`,
`w & !(1 << i)` otherwise. -/
def setBit (w i : Nat) (val : Bool) : Nat :=
  if val then w ||| (1 <<< i) else Nat.ldiff w (1 <<< i)

/-- `bit_field` crate `set_bits(lo..hi, v)`: clear the bits of the range,
then OR in `v` shifted to the range's start. -/
def setBitsRange (w lo hi v : Nat) : Nat :=
  Nat.ldiff w (((1 <<< (hi - lo)) - 1) <<< lo) ||| (v <<< lo)

/-- `Mstatus::uie`: `self.bits & (1 << 0) == 1 << 0`. -/
def Mstatus.uie (m : Mstatus) : Bool :=
  m.bits &&& (1 <<< 0) == 1 <<< 0

/-- `Mstatus::sie`: `self.bits & (1 << 1) == 1 << 1`. -/
def Mstatus.sie (m : Mstatus) : Bool :=
  m.bits &&& (1 <<< 1) == 1 <<< 1

/-- `Mstatus::mie`: `self.bits & (1 << 3) == 1 << 3`. -/
def Mstatus.mie (m : Mstatus) : Bool :=
  m.bits &&& (1 <<< 3) == 1 <<< 3

/-- `Mstatus::upie`: `self.bits & (1 << 4) == 1 << 4`. -/
def Mstatus.upie (m : Mstatus) : Bool :=
  m.bits &&& (1 <<< 4) == 1 <<< 4

/-- `Mstatus::spie`: `self.bits & (1 << 5) == 1 << 5`. -/
def Mstatus.spie (m : Mstatus) : Bool :=
  m.bits &&& (1 <<< 5) == 1 <<< 5

/-- `Mstatus::mpie`: `self.bits & (1 << 7) == 1 << 7`. -/
def Mstatus.mpie (m : Mstatus) : Bool :=
  m.bits &&& (1 <<< 7) == 1 <<< 7

/-- `Mstatus::spp`: bit 8 decides between `Supervisor` and `User`. -/
def Mstatus.spp (m : Mstatus) : SPP :=
  match m.bits &&& (1 <<< 8) == 1 <<< 8 with
  | true => SPP.Supervisor
  | false => SPP.User

/-- `Mstatus::mpp`: extract bits 11..12, match on the pattern; the
`unreachable!()` arm is `none`. -/
def Mstatus.mpp (m : Mstatus) : Option MPP :=
  match (m.bits &&& (0b11 <<< 11)) >>> 11 with
  | 0b00 => some MPP.User
  | 0b01 => some MPP.Supervisor
  | 0b11 => some MPP.Machine
  | _ => none

/-- `Mstatus::xie`: delegates to `mie`. -/
def Mstatus.xie (m : Mstatus) : Bool :=
  m.mie

/-- `Mstatus::set_xpie`: `self.bits.set_bit(7, val)` on the snapshot. -/
def Mstatus.set_xpie (m : Mstatus) (val : Bool) : Mstatus :=
  ⟨setBit m.bits 7 val⟩

/-- `Mstatus::set_xie`: `self.bits.set_bit(3, val)` on the snapshot. -/
def Mstatus.set_xie (m : Mstatus) (val : Bool) : Mstatus :=
  ⟨setBit m.bits 3 val⟩

/-- `Mstatus::set_mpp`: `self.bits.set_bits(11..13, val as usize)`. -/
def Mstatus.set_mpp (m : Mstatus) (val : MPP) : Mstatus :=
  ⟨setBitsRange m.bits 11 13 val.code⟩

/-- Compilation target, as the code distinguishes it via `target_arch`. -/
inductive Target
  | riscv32
  | riscv64
  | other
deriving DecidableEq, Repr

/-- Whether the target is one of the riscv architectures the code supports. -/
def Target.isRiscv : Target → Bool
  | .riscv32 => true
  | .riscv64 => true
  | .other => false

/-- `read()`: `csrrs r, 0x300, x0` (atomic read of the live word) on riscv
targets; `unimplemented!()` (modelled `none`) elsewhere. -/
def read (t : Target) (hw : Nat) : Option Mstatus :=
  if t.isRiscv then some ⟨hw⟩ else none

/-- `set(bits)`: `csrrs x0, 0x300, bits` — atomically OR `bits` into the
live word on riscv targets; `unimplemented!()` elsewhere. -/
def set (t : Target) (hw bits : Nat) : Option Nat :=
  if t.isRiscv then some (hw ||| bits) else none

/-- `clear(bits)`: `csrrc x0, 0x300, bits` — atomically clear the bits of
`bits` in the live word on riscv targets; `unimplemented!()` elsewhere. -/
def clear (t : Target) (hw bits : Nat) : Option Nat :=
  if t.isRiscv then some (Nat.ldiff hw bits) else none

/-- `set_uie` (module level, from `set_clear_csr!(set_uie, clear_uie, 1 << 0)`). -/
def set_uie (t : Target) (hw : Nat) : Option Nat := set t hw (1 <<< 0)

/-- `clear_uie` (module level). -/
def clear_uie (t : Target) (hw : Nat) : Option Nat := clear t hw (1 <<< 0)

/-- `set_sie` (module level, mask `1 << 1`). -/
def set_sie (t : Target) (hw : Nat) : Option Nat := set t hw (1 <<< 1)

/-- `clear_sie` (module level). -/
def clear_sie (t : Target) (hw : Nat) : Option Nat := clear t hw (1 <<< 1)

/-- `set_mie` (module level, mask `1 << 3`). -/
def set_mie (t : Target) (hw : Nat) : Option Nat := set t hw (1 <<< 3)

/-- `clear_mie` (module level). -/
def clear_mie (t : Target) (hw : Nat) : Option Nat := clear t hw (1 <<< 3)

/-- `set_xie` (module level, mask `1 << 3`). -/
def set_xie (t : Target) (hw : Nat) : Option Nat := set t hw (1 <<< 3)

/-- `clear_xie` (module level). -/
def clear_xie (t : Target) (hw : Nat) : Option Nat := clear t hw (1 <<< 3)

/-- `set_upie` (module level, mask `1 << 4`). -/
def set_upie (t : Target) (hw : Nat) : Option Nat := set t hw (1 <<< 4)

/-- `set_spie` (module level, mask `1 << 5`). -/
def set_spie (t : Target) (hw : Nat) : Option Nat := set t hw (1 <<< 5)

/-- `set_mpie` (module level, mask `1 << 7`). -/
def set_mpie (t : Target) (hw : Nat) : Option Nat := set t hw (1 <<< 7)

/-- `set_xpie` (module level, mask `1 << 7`). -/
def set_xpie (t : Target) (hw : Nat) : Option Nat := set t hw (1 <<< 7)

/-- `set_spp(spp)`: `set((spp as usize) << 8)`. -/
def set_spp (t : Target) (hw : Nat) (spp : SPP) : Option Nat :=
  set t hw (spp.code <<< 8)

/-- `set_mpp(mpp)`: `set((mpp as usize) << 11)`. -/
def set_mpp (t : Target) (hw : Nat) (mpp : MPP) : Option Nat :=
  set t hw (mpp.code <<< 11)

/-- Combined program state for frame reasoning: a snapshot copy held by the
caller together with the live hardware word. -/
structure World where
  snap : Mstatus
  hw : Nat
deriving DecidableEq, Repr

/-- Calling the snapshot method `Mstatus::set_xie` inside a world: only the
copied snapshot is passed `&mut`, the live word is inaccessible to it. -/
def World.snapSetXie (st : World) (v : Bool) : World :=
  { st with snap := st.snap.set_xie v }

/-- Calling the snapshot method `Mstatus::set_xpie` inside a world. -/
def World.snapSetXpie (st : World) (v : Bool) : World :=
  { st with snap := st.snap.set_xpie v }

/-- Calling the snapshot method `Mstatus::set_mpp` inside a world. -/
def World.snapSetMpp (st : World) (v : MPP) : World :=
  { st with snap := st.snap.set_mpp v }

/-! ### Helper lemmas -/

theorem and_shift_beq (w i : Nat) :
    (w &&& (1 <<< i) == 1 <<< i) = w.testBit i := by
  rw [Nat.one_shiftLeft, Nat.and_two_pow]
  cases h : w.testBit i
  · simp only [Bool.toNat_false, Nat.zero_mul, beq_eq_false_iff_ne, ne_eq]
    exact (Nat.two_pow_pos i).ne
  · simp

theorem extract_field_eq_mod (w : Nat) :
    (w &&& (0b11 <<< 11)) >>> 11 = (w >>> 11) % 4 := by
  apply Nat.eq_of_testBit_eq
  intro j
  have h3 : (0b11 : Nat) = 2 ^ 2 - 1 := rfl
  have h4 : (4 : Nat) = 2 ^ 2 := rfl
  rw [h3, h4]
  simp only [Nat.testBit_shiftRight, Nat.testBit_and, Nat.testBit_shiftLeft,
    Nat.testBit_mod_two_pow, Nat.testBit_two_pow_sub_one, ge_iff_le,
    Nat.le_add_right, decide_True, Bool.true_and, Nat.add_sub_cancel_left]
  by_cases hj : j < 2 <;> simp [hj, Bool.and_comm]

theorem extract_setBitsRange (w c : Nat) :
    ((setBitsRange w 11 13 c) >>> 11) % 4 = c % 4 := by
  apply Nat.eq_of_testBit_eq
  intro j
  have h3 : ((1 <<< (13 - 11) : Nat) - 1) = 2 ^ 2 - 1 := rfl
  have h4 : (4 : Nat) = 2 ^ 2 := rfl
  unfold setBitsRange
  rw [h3, h4]
  simp only [Nat.testBit_shiftRight, Nat.testBit_mod_two_pow, Nat.testBit_or,
    Nat.testBit_ldiff, Nat.testBit_shiftLeft, Nat.testBit_two_pow_sub_one,
    ge_iff_le, Nat.le_add_right, decide_True, Bool.true_and,
    Nat.add_sub_cancel_left]
  by_cases hj : j < 2 <;> simp [hj]

theorem testBit_setBit_self (w i : Nat) (v : Bool) :
    (setBit w i v).testBit i = v := by
  unfold setBit
  cases v <;>
    simp [Nat.testBit_ldiff, Nat.testBit_or, Nat.one_shiftLeft,
      Nat.testBit_two_pow_self]

theorem testBit_setBit_other (w i j : Nat) (v : Bool) (h : j ≠ i) :
    (setBit w i v).testBit j = w.testBit j := by
  unfold setBit
  cases v <;>
    simp [Nat.testBit_ldiff, Nat.testBit_or, Nat.one_shiftLeft,
      Nat.testBit_two_pow_of_ne fun he => h he.symm]

/-! ### Claims -/

/-- C1: each single-bit flag accessor returns exactly the bit at the
documented position (uie ↦ 0, sie ↦ 1, mie ↦ 3, upie ↦ 4, spie ↦ 5,
mpie ↦ 7), and `spp` returns `Supervisor` iff bit 8 is set. -/
theorem claim1_flag_accessors (w : Nat) :
    (Mstatus.mk w).uie = w.testBit 0 ∧
    (Mstatus.mk w).sie = w.testBit 1 ∧
    (Mstatus.mk w).mie = w.testBit 3 ∧
    (Mstatus.mk w).upie = w.testBit 4 ∧
    (Mstatus.mk w).spie = w.testBit 5 ∧
    (Mstatus.mk w).mpie = w.testBit 7 ∧
    ((Mstatus.mk w).spp = SPP.Supervisor ↔ w.testBit 8 = true) := by
  refine ⟨and_shift_beq w 0, and_shift_beq w 1, and_shift_beq w 3,
    and_shift_beq w 4, and_shift_beq w 5, and_shift_beq w 7, ?_⟩
  unfold Mstatus.spp
  rw [and_shift_beq w 8]
  cases h : w.testBit 8 <;> simp

/-- C2: decoding bits 11..12 (right-aligned) yields `User` for pattern `0b00`,
`Supervisor` for `0b01`, `Machine` for `0b11`, and the pattern `0b10` hits the
`unreachable!()` failure path (`none`), never a variant or default. -/
theorem claim2_mpp_decode (w : Nat) :
    ((Mstatus.mk w).mpp = some MPP.User ↔ (w >>> 11) % 4 = 0) ∧
    ((Mstatus.mk w).mpp = some MPP.Supervisor ↔ (w >>> 11) % 4 = 1) ∧
    ((Mstatus.mk w).mpp = some MPP.Machine ↔ (w >>> 11) % 4 = 3) ∧
    ((Mstatus.mk w).mpp = none ↔ (w >>> 11) % 4 = 2) := by
  have h : (w >>> 11) % 4 = 0 ∨ (w >>> 11) % 4 = 1 ∨ (w >>> 11) % 4 = 2 ∨
      (w >>> 11) % 4 = 3 := by omega
  unfold Mstatus.mpp
  rw [extract_field_eq_mod]
  rcases h with h | h | h | h <;> rw [h] <;> simp

/-- C4: encode-then-decode round-trip for the MPP field: `set_mpp v` followed
by `mpp` yields `v` for every starting word; concretely, word `0` with bits
11..12 set to `0b11`/`0b01`/`0b00` decodes to Machine/Supervisor/User. -/
theorem claim4_mpp_roundtrip (w : Nat) (v : MPP) :
    ((Mstatus.mk w).set_mpp v).mpp = some v ∧
    (Mstatus.mk (0b11 <<< 11)).mpp = some MPP.Machine ∧
    (Mstatus.mk (0b01 <<< 11)).mpp = some MPP.Supervisor ∧
    (Mstatus.mk (0b00 <<< 11)).mpp = some MPP.User := by
  refine ⟨?_, by decide, by decide, by decide⟩
  show (Mstatus.mk (setBitsRange w 11 13 v.code)).mpp = some v
  unfold Mstatus.mpp
  rw [extract_field_eq_mod, extract_setBitsRange]
  cases v <;> rfl

/-- C6: the MPP enumeration's numeric codes are exactly 0, 1 and 3; the
encoded bit pattern for the field never has 0b10 in bits 11..12, neither in
the module-level mask nor after the snapshot setter. -/
theorem claim6_no_invalid_pattern (w : Nat) (v : MPP) :
    (v.code = 0 ∨ v.code = 1 ∨ v.code = 3) ∧
    ((v.code <<< 11) >>> 11) % 4 ≠ 2 ∧
    (((Mstatus.mk w).set_mpp v).bits >>> 11) % 4 ≠ 2 := by
  refine ⟨by cases v <;> simp [MPP.code], by cases v <;> decide, ?_⟩
  show ((setBitsRange w 11 13 v.code) >>> 11) % 4 ≠ 2
  rw [extract_setBitsRange]
  cases v <;> decide

/-- C3: the current-privilege aliases resolve to the machine-level bits:
`xie` reads bit 3 exactly as `mie`; the snapshot setters `set_xie`/`set_xpie`
write bit 3 and bit 7 (leaving other bits alone); and the module-level
`set_xie`/`clear_xie`/`set_xpie` coincide with `set_mie`/`clear_mie`/`set_mpie`
(same masks `1<<3` and `1<<7`). -/
theorem claim3_alias (w j k hw : Nat) (v : Bool) (t : Target)
    (hj : j ≠ 3) (hk : k ≠ 7) :
    (Mstatus.mk w).xie = (Mstatus.mk w).mie ∧
    ((Mstatus.mk w).set_xie v).bits.testBit 3 = v ∧
    ((Mstatus.mk w).set_xie v).bits.testBit j = w.testBit j ∧
    ((Mstatus.mk w).set_xpie v).bits.testBit 7 = v ∧
    ((Mstatus.mk w).set_xpie v).bits.testBit k = w.testBit k ∧
    set_xie t hw = set_mie t hw ∧
    clear_xie t hw = clear_mie t hw ∧
    set_xpie t hw = set_mpie t hw :=
  ⟨rfl, testBit_setBit_self w 3 v, testBit_setBit_other w 3 j v hj,
   testBit_setBit_self w 7 v, testBit_setBit_other w 7 k v hk,
   rfl, rfl, rfl⟩

/-- C3 witness at `w = 0, j = 0, k = 0, hw = 0, v = true, t = riscv64`. -/
theorem claim3_alias_witness :
    (Mstatus.mk 0).xie = (Mstatus.mk 0).mie ∧
    ((Mstatus.mk 0).set_xie true).bits.testBit 3 = true ∧
    ((Mstatus.mk 0).set_xie true).bits.testBit 0 = Nat.testBit 0 0 ∧
    ((Mstatus.mk 0).set_xpie true).bits.testBit 7 = true ∧
    ((Mstatus.mk 0).set_xpie true).bits.testBit 0 = Nat.testBit 0 0 ∧
    set_xie Target.riscv64 0 = set_mie Target.riscv64 0 ∧
    clear_xie Target.riscv64 0 = clear_mie Target.riscv64 0 ∧
    set_xpie Target.riscv64 0 = set_mpie Target.riscv64 0 :=
  claim3_alias 0 0 0 0 true Target.riscv64 (by decide) (by decide)

/-- C5: on a word with bit 3 clear, the module-level set with mask `1<<3`
yields exactly the OR with `1<<3`, every other bit is unchanged, and the
matching clear restores the original word. -/
theorem claim5_set_then_clear (w j : Nat) (h : w.testBit 3 = false)
    (hj : j ≠ 3) :
    set_mie Target.riscv64 w = some (w ||| (1 <<< 3)) ∧
    (w ||| (1 <<< 3)).testBit j = w.testBit j ∧
    clear_mie Target.riscv64 (w ||| (1 <<< 3)) = some w := by
  refine ⟨rfl, ?_, ?_⟩
  · simp [Nat.testBit_or, Nat.one_shiftLeft,
      Nat.testBit_two_pow_of_ne fun he => hj he.symm]
  · show some (Nat.ldiff (w ||| (1 <<< 3)) (1 <<< 3)) = some w
    congr 1
    apply Nat.eq_of_testBit_eq
    intro i
    by_cases hi : i = 3
    · subst hi
      simp [Nat.testBit_ldiff, Nat.testBit_or, Nat.one_shiftLeft,
        Nat.testBit_two_pow_self, h]
    · simp [Nat.testBit_ldiff, Nat.testBit_or, Nat.one_shiftLeft,
        Nat.testBit_two_pow_of_ne fun he => hi he.symm]

/-- C5 witness at `w = 0, j = 0`. -/
theorem claim5_set_then_clear_witness :
    set_mie Target.riscv64 0 = some (0 ||| (1 <<< 3)) ∧
    ((0 : Nat) ||| (1 <<< 3)).testBit 0 = Nat.testBit 0 0 ∧
    clear_mie Target.riscv64 (0 ||| (1 <<< 3)) = some 0 :=
  claim5_set_then_clear 0 0 (by decide) (by decide)

/-- C7: atomic set of bit A and atomic clear of bit B (A ≠ B) commute: both
orders of the two hardware operations produce the same final word, which has
bit A set, bit B clear, and every other bit as in the starting word. -/
theorem claim7_order_independent (w A B j : Nat) (hAB : A ≠ B)
    (hjA : j ≠ A) (hjB : j ≠ B) :
    (set Target.riscv64 w (1 <<< A)).bind
        (fun x => clear Target.riscv64 x (1 <<< B)) =
      (clear Target.riscv64 w (1 <<< B)).bind
        (fun x => set Target.riscv64 x (1 <<< A)) ∧
    (set Target.riscv64 w (1 <<< A)).bind
        (fun x => clear Target.riscv64 x (1 <<< B)) =
      some (Nat.ldiff (w ||| (1 <<< A)) (1 <<< B)) ∧
    (Nat.ldiff (w ||| (1 <<< A)) (1 <<< B)).testBit A = true ∧
    (Nat.ldiff (w ||| (1 <<< A)) (1 <<< B)).testBit B = false ∧
    (Nat.ldiff (w ||| (1 <<< A)) (1 <<< B)).testBit j = w.testBit j := by
  have hset : ∀ x m, set Target.riscv64 x m = some (x ||| m) := fun _ _ => rfl
  have hclear : ∀ x m, clear Target.riscv64 x m = some (Nat.ldiff x m) :=
    fun _ _ => rfl
  refine ⟨?_, rfl, ?_, ?_, ?_⟩
  · show some (Nat.ldiff (w ||| (1 <<< A)) (1 <<< B)) =
      some ((Nat.ldiff w (1 <<< B)) ||| (1 <<< A))
    congr 1
    apply Nat.eq_of_testBit_eq
    intro i
    by_cases hiB : i = B
    · subst hiB
      simp [Nat.testBit_ldiff, Nat.testBit_or, Nat.one_shiftLeft,
        Nat.testBit_two_pow_self, Nat.testBit_two_pow_of_ne hAB]
    · simp [Nat.testBit_ldiff, Nat.testBit_or, Nat.one_shiftLeft,
        Nat.testBit_two_pow_of_ne fun he => hiB he.symm]
  · simp [Nat.testBit_ldiff, Nat.testBit_or, Nat.one_shiftLeft,
      Nat.testBit_two_pow_self, Nat.testBit_two_pow_of_ne hAB.symm]
  · simp [Nat.testBit_ldiff, Nat.one_shiftLeft, Nat.testBit_two_pow_self]
  · simp [Nat.testBit_ldiff, Nat.testBit_or, Nat.one_shiftLeft,
      Nat.testBit_two_pow_of_ne fun he => hjA he.symm,
      Nat.testBit_two_pow_of_ne fun he => hjB he.symm]

/-- C7 witness at `w = 0, A = 3, B = 5, j = 0`. -/
theorem claim7_order_independent_witness :
    (set Target.riscv64 0 (1 <<< 3)).bind
        (fun x => clear Target.riscv64 x (1 <<< 5)) =
      (clear Target.riscv64 0 (1 <<< 5)).bind
        (fun x => set Target.riscv64 x (1 <<< 3)) ∧
    (set Target.riscv64 0 (1 <<< 3)).bind
        (fun x => clear Target.riscv64 x (1 <<< 5)) =
      some (Nat.ldiff (0 ||| (1 <<< 3)) (1 <<< 5)) ∧
    (Nat.ldiff ((0 : Nat) ||| (1 <<< 3)) (1 <<< 5)).testBit 3 = true ∧
    (Nat.ldiff ((0 : Nat) ||| (1 <<< 3)) (1 <<< 5)).testBit 5 = false ∧
    (Nat.ldiff ((0 : Nat) ||| (1 <<< 3)) (1 <<< 5)).testBit 0 =
      Nat.testBit 0 0 :=
  claim7_order_independent 0 3 5 0 (by decide) (by decide) (by decide)

/-- C8: on a target that is neither riscv32 nor riscv64, every
hardware-touching operation hits the `unimplemented!()` path (modelled
`none`) instead of producing a fabricated register value. -/
theorem claim8_unsupported_target (t : Target) (hw m : Nat) (v : MPP)
    (s : SPP) (h32 : t ≠ Target.riscv32) (h64 : t ≠ Target.riscv64) :
    read t hw = none ∧ set t hw m = none ∧ clear t hw m = none ∧
    set_uie t hw = none ∧ clear_uie t hw = none ∧
    set_sie t hw = none ∧ clear_sie t hw = none ∧
    set_mie t hw = none ∧ clear_mie t hw = none ∧
    set_xie t hw = none ∧ clear_xie t hw = none ∧
    set_upie t hw = none ∧ set_spie t hw = none ∧
    set_mpie t hw = none ∧ set_xpie t hw = none ∧
    set_spp t hw s = none ∧ set_mpp t hw v = none := by
  have ht : t = Target.other := by
    cases t
    · exact absurd rfl h32
    · exact absurd rfl h64
    · rfl
  subst ht
  exact ⟨rfl, rfl, rfl, rfl, rfl, rfl, rfl, rfl, rfl, rfl, rfl, rfl, rfl,
    rfl, rfl, rfl, rfl⟩

/-- C8 witness at `t = other, hw = 0, m = 0, v = User, s = User`. -/
theorem claim8_unsupported_target_witness :
    read Target.other 0 = none ∧ set Target.other 0 0 = none ∧
    clear Target.other 0 0 = none ∧
    set_uie Target.other 0 = none ∧ clear_uie Target.other 0 = none ∧
    set_sie Target.other 0 = none ∧ clear_sie Target.other 0 = none ∧
    set_mie Target.other 0 = none ∧ clear_mie Target.other 0 = none ∧
    set_xie Target.other 0 = none ∧ clear_xie Target.other 0 = none ∧
    set_upie Target.other 0 = none ∧ set_spie Target.other 0 = none ∧
    set_mpie Target.other 0 = none ∧ set_xpie Target.other 0 = none ∧
    set_spp Target.other 0 SPP.User = none ∧
    set_mpp Target.other 0 MPP.User = none :=
  claim8_unsupported_target Target.other 0 0 MPP.User SPP.User
    (by decide) (by decide)

/-- C10: the snapshot's in-place setters mutate only the copied bits and
leave the live register untouched, while the module-level functions of the
same names do write the hardware word. -/
theorem claim10_snapshot_frame (st : World) (v : Bool) (m : MPP) :
    (st.snapSetXie v).hw = st.hw ∧
    (st.snapSetXpie v).hw = st.hw ∧
    (st.snapSetMpp m).hw = st.hw ∧
    set_xie Target.riscv64 0 = some 8 ∧
    set_xpie Target.riscv64 0 = some 128 ∧
    set_mpp Target.riscv64 0 MPP.Machine = some 6144 :=
  ⟨rfl, rfl, rfl, by decide, by decide, by decide⟩

end RiscvMstatus
